import Mathlib

/-!
Verification development for the Bretton Woods multiplayer game servers
(`server.js`, single-room, and `server-multiroom.js`, room-based).

The JavaScript state objects are embedded shallowly:
* JS objects used as dictionaries become association lists
  (`List (κ × α)`) with JS-object update semantics (overwriting an
  existing key keeps its position, a new key is appended), or total
  functions with pointwise update where only lookups matter (scores).
* JS numbers become `ℚ` (the economic model) or `ℤ` (scores);
  `Math.round` becomes `jsRound` below.
* Code that can throw (`calculateFinalAchievements` references the
  undeclared identifier `gameData`) returns the mutated state paired
  with an `Option JsErr`.
-/

namespace Bretton

/-- Lookup in a JS-object-like association list (`obj[k]`). -/
def objGet {κ α : Type} [DecidableEq κ] (l : List (κ × α)) (k : κ) : Option α :=
  (l.find? (fun e => e.1 = k)).map (·.2)

/-- JS-object assignment `obj[k] = v`: overwriting keeps the entry's
position, a fresh key is appended at the end. -/
def objSet {κ α : Type} [DecidableEq κ] (l : List (κ × α)) (k : κ) (v : α) :
    List (κ × α) :=
  if l.any (fun e => e.1 = k) then
    l.map (fun e => if e.1 = k then (k, v) else e)
  else
    l ++ [(k, v)]

/-- JS `delete obj[k]`. -/
def objErase {κ α : Type} [DecidableEq κ] (l : List (κ × α)) (k : κ) :
    List (κ × α) :=
  l.filter (fun e => ¬ e.1 = k)

/-- Pointwise update of a total score table. -/
def updFn {α : Type} [DecidableEq κ] (f : κ → α) (k : κ) (v : α) : κ → α :=
  fun x => if x = k then v else f x

/-- JS `Math.round`: floor of x + 1/2 (halves round toward +∞). -/
def jsRound (q : ℚ) : ℤ := ⌊q + 1/2⌋

/-- JS `Math.round(x * 10) / 10`: round to one decimal place. -/
def round1 (q : ℚ) : ℚ := (jsRound (q * 10) : ℚ) / 10

/-! ## Economic model (`server.js`, `calculateYearEconomics` lines 514–670) -/

/-- A Phase-2 policy submission (`setPhase2Policies`). -/
structure Policy where
  centralBankRate : ℚ
  exchangeRate : ℚ
  tariffRate : ℚ
deriving DecidableEq, Repr

/-- One country's economic record for one year
(`gameState.phase2.yearlyData[year][country]`). -/
structure EconData where
  gdpGrowth : ℚ
  goldReserves : ℚ
  unemployment : ℚ
  tradeBalance : ℚ
  inflation : ℚ
  industrialOutput : ℚ
deriving DecidableEq, Repr

/-- The three `Math.random()`-derived shock terms consumed per country and
year, already scaled as in the source: `(Math.random()-0.5)*2` for GDP,
`(Math.random()-0.5)*3` for inflation, `(Math.random()-0.5)*200` for
trade.  Injected so that the model is deterministic. -/
structure ShockInputs where
  gdp : ℚ
  infl : ℚ
  trade : ℚ
deriving DecidableEq, Repr

/-- Zero shocks: the deterministic run used by the spec's scenarios. -/
def zeroShocks : ShockInputs := ⟨0, 0, 0⟩

/-- China Civil War penalties (1946–1949): GDP, inflation, trade deltas. -/
def civilWarPenalty (country : String) (currentYear : ℕ) : ℚ × ℚ × ℚ :=
  if country = "China" ∧ 1946 ≤ currentYear ∧ currentYear ≤ 1949 then
    (-2, 10, -500)
  else (0, 0, 0)

/-- India independence-transition penalties (1947 partition, 1948
recovery): GDP, inflation, trade deltas. -/
def indiaTransition (country : String) (currentYear : ℕ) : ℚ × ℚ × ℚ :=
  if country = "India" then
    if currentYear = 1947 then (-1.5, 8, -300)
    else if currentYear = 1948 then (-0.5, 3, -100)
    else (0, 0, 0)
  else (0, 0, 0)

/-- GDP-growth band of `calculatePerformanceScore` (lines 694–712). -/
def gdpBand (g : ℚ) : ℤ :=
  if 5 ≤ g ∧ g ≤ 7 then 15
  else if 3 ≤ g ∧ g < 5 then 12
  else if g > 7 then 8
  else if 1 ≤ g ∧ g < 3 then 6
  else if 0 ≤ g ∧ g < 1 then 2
  else -5

/-- Unemployment band of `calculatePerformanceScore` (lines 715–733). -/
def unemploymentBand (u : ℚ) : ℤ :=
  if 2 ≤ u ∧ u ≤ 4 then 15
  else if u < 2 then 10
  else if 4 < u ∧ u ≤ 6 then 12
  else if 6 < u ∧ u ≤ 8 then 6
  else if 8 < u ∧ u ≤ 10 then 2
  else -3

/-- Inflation band of `calculatePerformanceScore` (lines 736–757). -/
def inflationBand (i : ℚ) : ℤ :=
  if 1 ≤ i ∧ i ≤ 3 then 12
  else if 3 < i ∧ i ≤ 5 then 10
  else if 0 < i ∧ i < 1 then 5
  else if 5 < i ∧ i ≤ 7 then 4
  else if 7 < i ∧ i ≤ 10 then 0
  else if i > 10 then -8
  else -5

/-- Trade-balance band of `calculatePerformanceScore` (lines 760–778). -/
def tradeBand (t : ℚ) : ℤ :=
  if t > 2000 then 10
  else if t > 1000 then 8
  else if t > 0 then 6
  else if t > -500 then 4
  else if t > -1500 then 2
  else 0

/-- Gold-reserve-change band of `calculatePerformanceScore` (781–796). -/
def goldBand (gc : ℚ) : ℤ :=
  if gc > 1000 then 5
  else if gc > 500 then 3
  else if gc > 0 then 1
  else if gc > -500 then 0
  else -2

/-- Industrial-output-growth band of `calculatePerformanceScore`
(lines 799–814). -/
def outputBand (og : ℚ) : ℤ :=
  if og ≥ 10 then 3
  else if og ≥ 5 then 2
  else if og ≥ 2 then 1
  else if og ≥ 0 then 0
  else -1

/-- `calculatePerformanceScore` (lines 689–817): the total is the sum of
the six band contributions (the source records the same values in the
`breakdown` object it returns alongside the total). -/
def calculatePerformanceScore (gdpGrowth unemployment inflation
    tradeBalance goldChange outputGrowth : ℚ) : ℤ :=
  gdpBand gdpGrowth + unemploymentBand unemployment +
  inflationBand inflation + tradeBand tradeBalance +
  goldBand goldChange + outputBand outputGrowth

/-- The per-country body of `calculateYearEconomics` when a policy and
the previous year's record are both present (lines 514–659): returns the
stored (rounded) record for the next year and the performance score added
to the country's running total. -/
def calcCountryYear (country : String) (currentYear : ℕ) (prevData : EconData)
    (policy : Policy) (agreementBonus : ℚ) (sh : ShockInputs) :
    EconData × ℤ :=
  let cw := civilWarPenalty country currentYear
  let it := indiaTransition country currentYear
  let cbRateDeviation := |policy.centralBankRate - 3.0|
  let exchangeRateImpact := (policy.exchangeRate - 1.0) * (-2.0)
  let optimalTariff : ℚ := if country = "USA" then 10 else 15
  let tariffDeviation := |policy.tariffRate - optimalTariff|
  let gdpGrowth :=
    4.0 - cbRateDeviation * 0.5 + exchangeRateImpact - tariffDeviation * 0.1
      + agreementBonus + cw.1 + it.1 + sh.gdp
  let inflationShifted :=
    prevData.inflation +
      (if policy.centralBankRate < 2.0 then
        (2.0 - policy.centralBankRate) * 2.0
      else if policy.centralBankRate > 5.0 then
        -((policy.centralBankRate - 5.0) * 1.5)
      else 0)
  let inflation := max 0 (inflationShifted + sh.infl) + cw.2.1 + it.2.1
  let unemploymentRaw :=
    prevData.unemployment +
      (if gdpGrowth > 3.0 then -((gdpGrowth - 3.0) * 0.3)
      else if gdpGrowth < 1.0 then (1.0 - gdpGrowth) * 0.5
      else 0)
  let unemployment := max 0.5 (min 25 unemploymentRaw)
  let exchangeEffect := (1.0 - policy.exchangeRate) * 500
  let tariffEffect := policy.tariffRate * (-20)
  let growthEffect := gdpGrowth * (-100)
  let tradeBalance :=
    prevData.tradeBalance + exchangeEffect + tariffEffect + growthEffect
      + sh.trade + cw.2.2 + it.2.2
  let goldReserves :=
    max 0 (prevData.goldReserves +
      (if tradeBalance > 0 then tradeBalance * 0.1 else tradeBalance * 0.15))
  let industrialOutput := max 0 (prevData.industrialOutput + gdpGrowth * 0.5)
  let outputGrowth := industrialOutput - prevData.industrialOutput
  let goldChange := goldReserves - prevData.goldReserves
  let stored : EconData :=
    { gdpGrowth := round1 gdpGrowth
      goldReserves := (jsRound goldReserves : ℚ)
      unemployment := round1 unemployment
      tradeBalance := (jsRound tradeBalance : ℚ)
      inflation := round1 inflation
      industrialOutput := round1 industrialOutput }
  (stored,
    calculatePerformanceScore gdpGrowth unemployment inflation tradeBalance
      goldChange outputGrowth)

/-- The per-country step of `calculateYearEconomics` including the
missing-policy branch (lines 505–512): with no policy the next-year
record is the previous record with `gdpGrowth` overwritten by the fixed
penalty `-2.0` and no performance score is awarded (the source `return`s
before the scoring code). -/
def calcCountryYearOpt (country : String) (currentYear : ℕ)
    (prevData : EconData) (policy : Option Policy) (agreementBonus : ℚ)
    (sh : ShockInputs) : EconData × Option ℤ :=
  match policy with
  | none => ({ prevData with gdpGrowth := -2.0 }, none)
  | some p =>
      let r := calcCountryYear country currentYear prevData p agreementBonus sh
      (r.1, some r.2)

/-! ## Single-room server state (`server.js`) -/

/-- A Phase-1 issue option (`game-data.json` entry shape consumed by
`calculateScoresForCurrentRound`): id, display text, and the declared
favored/opposed country lists. -/
structure IssueOption where
  id : String
  text : String
  favors : List String
  opposes : List String
deriving DecidableEq, Repr

/-- A Phase-1 issue (`game-data.json` entry shape). -/
structure Issue where
  id : String
  title : String
  options : List IssueOption
deriving DecidableEq, Repr

/-- An entry of `gameState.roundHistory` (pushed at Phase-1 resolution,
lines 1036–1041). -/
structure RoundResult where
  round : ℕ
  issue : String
  winningOption : String
  votes : List (String × ℕ)
deriving DecidableEq, Repr

/-- `gameState.phase2` (lines 97–106).  `yearScores` keeps the per-year
per-country `total`; the per-band `breakdown` the source stores next to
it is the band decomposition of the same total and is omitted here. -/
structure Phase2State where
  active : Bool
  currentYear : ℕ
  maxYears : ℕ
  yearlyData : List (ℕ × List (String × EconData))
  policies : List (ℕ × List (String × Policy))
  achievements : List (String × (List (String × ℤ) × ℤ))
  yearScores : List (ℕ × List (String × ℤ))

/-- The `server.js` `gameState` fields the core algorithms read and
write.  `players` maps playerId to country (the source also stores
socket ids and timestamps, which no algorithm reads); `votes` is keyed
by the string `issueId ++ "-" ++ country`; `scores` is total with
default 0 (the source initialises the seven playable countries to 0). -/
structure GameState where
  gameStarted : Bool
  currentRound : ℕ
  players : List (String × String)
  votes : List (String × String)
  readyPlayers : List String
  gamePhase : String
  scores : String → ℤ
  roundHistory : List RoundResult
  phase2 : Phase2State

/-- The seven playable countries (`gameState.scores` keys). -/
def playableCountries : List String :=
  ["USA", "UK", "USSR", "France", "China", "India", "Argentina"]

/-- `calculateAgreementBonus` (lines 674–686): each of the seven
countries gets `max 0 (score / 20)`; any other country falls back to 0
(`agreementBonus[country] || 0` at line 536). -/
def calculateAgreementBonus (gs : GameState) (country : String) : ℚ :=
  if country ∈ playableCountries then max 0 ((gs.scores country : ℚ) / 20)
  else 0

/-- Placeholder record for the degenerate spread
`{...undefined, gdpGrowth: -2.0}` the source stores when a player's
country has no previous-year record (line 507 with `prevData`
undefined): in JS the other five fields are simply absent; `0` stands in
for them here.  No claim exercises this path. -/
def undefinedSpread : EconData := ⟨-2.0, 0, 0, 0, 0, 0⟩

/-- The per-player body of `calculateYearEconomics` (lines 499–670):
updates `yearlyData[nextYear][country]`, `yearScores[nextYear][country]`
and `scores[country]` inside the accumulating state.  `bonus` is the
agreement-bonus table computed once before the loop (line 497). -/
def yearEconStep (currentYear : ℕ) (policies : List (String × Policy))
    (prevYearData : List (String × EconData)) (bonus : String → ℚ)
    (shocks : String → ShockInputs) (gs : GameState) (country : String) :
    GameState :=
  let nextYear := currentYear + 1
  match objGet policies country, objGet prevYearData country with
  | some policy, some prevData =>
      let r := calcCountryYear country currentYear prevData policy
        (bonus country) (shocks country)
      let yd := objSet gs.phase2.yearlyData nextYear
        (objSet ((objGet gs.phase2.yearlyData nextYear).getD []) country r.1)
      let ys := objSet gs.phase2.yearScores nextYear
        (objSet ((objGet gs.phase2.yearScores nextYear).getD []) country r.2)
      { gs with
          phase2 := { gs.phase2 with yearlyData := yd, yearScores := ys }
          scores := updFn gs.scores country (gs.scores country + r.2) }
  | _, prevOpt =>
      -- `if (!policy || !prevData)`: store the spread record, no score.
      let stored := match prevOpt with
        | some prevData => { prevData with gdpGrowth := -2.0 }
        | none => undefinedSpread
      let yd := objSet gs.phase2.yearlyData nextYear
        (objSet ((objGet gs.phase2.yearlyData nextYear).getD []) country stored)
      { gs with phase2 := { gs.phase2 with yearlyData := yd } }

/-- `calculateYearEconomics` (lines 485–671): no-op when the current
year has no data; otherwise creates `yearlyData[nextYear]` and runs the
per-player step over the roster in insertion order. -/
def calculateYearEconomics (gs : GameState) (shocks : String → ShockInputs) :
    GameState :=
  let currentYear := gs.phase2.currentYear
  let policies := (objGet gs.phase2.policies currentYear).getD []
  match objGet gs.phase2.yearlyData currentYear with
  | none => gs
  | some prevYearData =>
      let bonus := calculateAgreementBonus gs
      let gs0 := { gs with phase2 := { gs.phase2 with
        yearlyData := objSet gs.phase2.yearlyData (currentYear + 1) [] } }
      gs0.players.foldl
        (fun acc p =>
          yearEconStep currentYear policies prevYearData bonus shocks acc p.2)
        gs0

/-! ## Achievement evaluation (`server.js`, `calculateFinalAchievements`
lines 820–987) -/

/-- The runtime error the embedding tracks: `calculateFinalAchievements`
reads the identifier `gameData` (lines 870 and 968), which is never
declared anywhere in `server.js` — at runtime this is a
`ReferenceError`. -/
inductive JsErr where
  | gameDataUndefined
deriving DecidableEq, Repr

/-- Shape of the `gameData.economicData[country]` fields the achievement
code reads. -/
structure EconStart where
  gdp : ℚ
  goldReserves : ℚ
deriving DecidableEq, Repr

/-- The binding of the identifier `gameData` in the scope of
`calculateFinalAchievements`: `server.js` never declares it (the data
file is loaded only into function-local constants elsewhere), so the
lookup fails — modelled as `none`. -/
def gameDataVar : Option (String → EconStart) := none

/-- The year records a country actually has for 1946–1952
(lines 832–837): missing years are skipped. -/
def yearsFor (gs : GameState) (country : String) : List EconData :=
  (List.range' 1946 7).filterMap
    (fun year => (objGet gs.phase2.yearlyData year).bind
      (fun yd => objGet yd country))

/-- The per-country body of `calculateFinalAchievements` (lines
827–985): `none` when the country has no recorded years (the early
`return`); otherwise the tiered and independent checks run until the
Phoenix Rising block dereferences the undeclared `gameData` and throws.
The country-specific blocks after that point (China, USA, USSR, India,
Argentina) are unreachable at runtime and are not modelled. -/
def evalCountryAchievements (gs : GameState) (country : String) :
    Option (Except JsErr (List (String × ℤ) × ℤ)) :=
  let years := yearsFor gs country
  if years.isEmpty then none
  else
    let n : ℚ := years.length
    let avgGDP := (years.map (·.gdpGrowth)).sum / n
    let avgUnemployment := (years.map (·.unemployment)).sum / n
    let avgInflation := (years.map (·.inflation)).sum / n
    let tier : List (String × ℤ) :=
      if avgGDP > 5 ∧ avgUnemployment < 4 ∧ 1 ≤ avgInflation ∧
          avgInflation ≤ 4 ∧ years.all (fun y => y.gdpGrowth > 0) then
        [("Golden Age", 100)]
      else if years.all (fun y => y.gdpGrowth > 0) ∧
          years.all (fun y => y.inflation ≤ 8) ∧
          years.all (fun y => y.unemployment ≤ 10) then
        [("Stable Prosperity", 60)]
      else []
    let totalTradeSurplus := (years.map (fun y => max 0 y.tradeBalance)).sum
    let trade : List (String × ℤ) :=
      if years.all (fun y => y.tradeBalance > 0) ∧ totalTradeSurplus > 5000
      then [("Trade Champion", 40)] else []
    match gameDataVar with
    | none =>
        -- `const startGDP = gameData.economicData[country].gdp;`
        -- throws `ReferenceError: gameData is not defined`.
        some (.error .gameDataUndefined)
    | some econ =>
        let startGDP := (econ country).gdp
        let endGDP := startGDP + (years.map (·.gdpGrowth)).sum
        let phoenix : List (String × ℤ) :=
          if endGDP / startGDP > 1.3 then [("Phoenix Rising", 50)] else []
        let all := tier ++ trade ++ phoenix
        some (.ok (all, (all.map (·.2)).sum))

/-- The roster loop of `calculateFinalAchievements`: a thrown
`ReferenceError` aborts the whole loop before any achievement or bonus
is stored. -/
def achievementsLoop (gs : GameState) :
    List String → GameState × Option JsErr
  | [] => (gs, none)
  | country :: rest =>
      match evalCountryAchievements gs country with
      | none => achievementsLoop gs rest
      | some (.error e) => (gs, some e)
      | some (.ok (list, bonus)) =>
          achievementsLoop
            { gs with
                phase2 := { gs.phase2 with
                  achievements := objSet gs.phase2.achievements country
                    (list, bonus) }
                scores := updFn gs.scores country
                  (gs.scores country + bonus) } rest

/-- `calculateFinalAchievements` (lines 820–987): pairs the resulting
state with the runtime error, if one escaped. -/
def calculateFinalAchievements (gs : GameState) : GameState × Option JsErr :=
  achievementsLoop gs (gs.players.map (·.2))

/-- `socket.on('advanceYear')` (lines 406–425): on full ready quorum
with Phase 2 active, run the year economics, then either advance the
year or run final achievements and complete.  Returns the state as
mutated up to the point an exception escaped, plus that exception. -/
def advanceYearHandler (gs : GameState) (shocks : String → ShockInputs) :
    GameState × Option JsErr :=
  let playerCount := gs.players.length
  if playerCount > 0 ∧ gs.readyPlayers.length = playerCount ∧
      gs.phase2.active then
    let gs1 := calculateYearEconomics gs shocks
    if gs1.phase2.currentYear - 1946 < gs1.phase2.maxYears then
      ({ gs1 with
          phase2 := { gs1.phase2 with
            currentYear := gs1.phase2.currentYear + 1 }
          readyPlayers := [] }, none)
    else
      match calculateFinalAchievements gs1 with
      | (gs2, some e) => (gs2, some e)
      | (gs2, none) => ({ gs2 with gamePhase := "complete" }, none)
  else (gs, none)

/-! ## Phase-1 round resolution (`server.js`,
`calculateScoresForCurrentRound` lines 991–1045) -/

/-- Vote counting (lines 997–1007): seed a counter per option in the
issue's option order, then bump `voteCounts[votedOptionId]` for each
player's recorded vote on this issue (a vote for an id that is not a
seeded option appends a fresh counter at the end; JS truthiness skips an
empty-string id). -/
def voteCountsFor (issue : Issue) (players : List (String × String))
    (votes : List (String × String)) : List (String × ℕ) :=
  let seeded := issue.options.map (fun o => (o.id, 0))
  players.foldl
    (fun counts p =>
      match objGet votes (issue.id ++ "-" ++ p.2) with
      | some votedOptionId =>
          if votedOptionId = "" then counts
          else objSet counts votedOptionId
            ((objGet counts votedOptionId).getD 0 + 1)
      | none => counts)
    seeded

/-- Winner search (lines 1010–1017): fold over the counters in order,
starting from `maxVotes = -1`, taking an entry only when its count
strictly exceeds the running maximum. -/
def findWinner (counts : List (String × ℕ)) : Option String :=
  (counts.foldl
    (fun acc e => if (e.2 : ℤ) > acc.2 then (some e.1, (e.2 : ℤ)) else acc)
    ((none : Option String), (-1 : ℤ))).1

/-- Modelled from the spec: "winner = option with strictly highest
count; ties broken by first-encountered option in insertion order" —
the first counter entry whose count is greatest. -/
def specWinner (counts : List (String × ℕ)) : Option String :=
  (counts.find? (fun e => counts.all (fun e' => e'.2 ≤ e.2))).map (·.1)

/-- The per-player score update at Phase-1 resolution (lines 1026–1032):
`+10` if the winning option favors the player's country, then `-5` if it
opposes it. -/
def roundDeltaStep (winningOption : IssueOption) (sc : String → ℤ)
    (p : String × String) : String → ℤ :=
  let sc1 := if winningOption.favors.contains p.2 then
    updFn sc p.2 (sc p.2 + 10) else sc
  if winningOption.opposes.contains p.2 then
    updFn sc1 p.2 (sc1 p.2 - 5) else sc1

/-- Score application at Phase-1 resolution (lines 1023–1033): the
per-player update folded over the roster. -/
def applyRoundDeltas (winningOption : IssueOption)
    (players : List (String × String)) (scores : String → ℤ) :
    String → ℤ :=
  players.foldl (roundDeltaStep winningOption) scores

/-- The net score delta a winning option assigns to one country:
`+10` when favored, `-5` when opposed (both can apply). -/
def deltaFor (winningOption : IssueOption) (c : String) : ℤ :=
  (if winningOption.favors.contains c then 10 else 0) +
  (if winningOption.opposes.contains c then -5 else 0)

/-- `calculateScoresForCurrentRound` (lines 991–1045).  The issue list
is the `game-data.json` content the source `require`s; it is passed in
as a parameter. -/
def calculateScoresForCurrentRound (issues : List Issue) (gs : GameState) :
    GameState :=
  match issues[gs.currentRound - 1]? with
  | none => gs
  | some currentIssue =>
      let voteCounts := voteCountsFor currentIssue gs.players gs.votes
      match findWinner voteCounts with
      | none => gs
      | some winningOptionId =>
          match currentIssue.options.find? (fun o => o.id = winningOptionId) with
          | none => gs
          | some winningOption =>
              { gs with
                  scores := applyRoundDeltas winningOption gs.players gs.scores
                  roundHistory := gs.roundHistory ++
                    [{ round := gs.currentRound
                       issue := currentIssue.title
                       winningOption := winningOption.text
                       votes := voteCounts }] }

/-! ## Multi-room server (`server-multiroom.js`) -/

/-- A multiroom vote choice (`'for' | 'against' | 'abstain'`). -/
inductive Choice where
  | voteFor
  | voteAgainst
  | voteAbstain
deriving DecidableEq, Repr

/-- The `voteTally` object built at resolution (lines 468–471). -/
structure Tally where
  tFor : ℕ
  tAgainst : ℕ
  tAbstain : ℕ
deriving DecidableEq, Repr

/-- `Object.values(room.votes).forEach(...)` tally accumulation. -/
def tallyVotes (vs : List Choice) : Tally :=
  vs.foldl
    (fun t v =>
      match v with
      | .voteFor => { t with tFor := t.tFor + 1 }
      | .voteAgainst => { t with tAgainst := t.tAgainst + 1 }
      | .voteAbstain => { t with tAbstain := t.tAbstain + 1 })
    ⟨0, 0, 0⟩

/-- Outcome rule (line 474): `passed` iff the `for` count strictly
exceeds the `against` count. -/
def roundOutcomeOf (vs : List Choice) : String :=
  if (tallyVotes vs).tFor > (tallyVotes vs).tAgainst then "passed"
  else "failed"

/-- Per-voter points (lines 482–497): 10 for participation, +30 for
voting with the winning side, +5 for abstaining. -/
def pointsFor (vote : Choice) (outcome : String) : ℤ :=
  10 +
    (if (vote = .voteFor ∧ outcome = "passed") ∨
        (vote = .voteAgainst ∧ outcome = "failed") then 30 else 0) +
    (if vote = .voteAbstain then 5 else 0)

/-- The fields of a multiroom room (`createGameState`, lines 35–59) that
the embedded handlers read or write.  `voteTally`, `roundOutcome` and
`roundScores` are absent until the first resolution writes them
(`none`/`[]` initially); broadcast-only fields (room name, military
data, timestamps) are omitted. -/
structure Room where
  hostId : String
  gameStarted : Bool
  currentRound : ℕ
  players : List (String × String)
  votes : List (String × Choice)
  readyPlayers : List String
  gamePhase : String
  scores : String → ℤ
  voteTally : Option Tally
  roundOutcome : Option String
  roundScores : List (String × ℤ)

/-- A fresh room (`createGameState`): empty roster and ledger, lobby
phase, all scores 0. -/
def freshRoom (hostId : String) : Room :=
  { hostId := hostId
    gameStarted := false
    currentRound := 0
    players := []
    votes := []
    readyPlayers := []
    gamePhase := "lobby"
    scores := fun _ => 0
    voteTally := none
    roundOutcome := none
    roundScores := [] }

/-- A registered user as the multiroom handlers see it:
`Object.values(globalState.users).find(u => u.playerId === playerId)`. -/
structure UserRec where
  playerId : String
  role : String
deriving DecidableEq, Repr

/-- The role lookup shared by the guarded handlers. -/
def findUser (users : List UserRec) (playerId : String) : Option UserRec :=
  users.find? (fun u => u.playerId = playerId)

/-- Structured results the handlers emit to the requesting socket. -/
inductive JoinResult where
  | ok
  | roomNotFound
  | adminObserver
  | countryTaken
deriving DecidableEq, Repr

/-- `socket.on('joinGame')` (lines 318–352): reject when the requester
is the superadmin, then when the country is taken; otherwise install the
player.  The `Bool` is whether a broadcast was triggered. -/
def joinGameHandler (users : List UserRec) (room : Room)
    (playerId country : String) : Room × JoinResult × Bool :=
  let user := findUser users playerId
  if user.map (·.role) = some "superadmin" then
    (room, .adminObserver, false)
  else if room.players.any (fun p => p.2 = country) then
    (room, .countryTaken, false)
  else
    ({ room with players := objSet room.players playerId country },
      .ok, true)

/-- `socket.on('leaveGame')` (lines 355–367): drop the player and their
ready mark (their recorded vote is not dropped). -/
def leaveGameHandler (room : Room) (playerId : String) : Room :=
  { room with
      players := objErase room.players playerId
      readyPlayers := room.readyPlayers.filter (fun id => ¬ id = playerId) }

/-- Results of `socket.on('startGame')`. -/
inductive StartResult where
  | ok
  | roomNotFound
  | notAdmin
  | notEnoughPlayers
deriving DecidableEq, Repr

/-- `socket.on('startGame')` (lines 387–440): superadmin-only; needs at
least 2 players; on success flips the room into round 1 of voting.  The
`Bool` is whether any broadcast was triggered. -/
def startGameHandler (users : List UserRec) (room : Room)
    (playerId : String) : Room × StartResult × Bool :=
  let user := findUser users playerId
  let isSuperAdmin := user.map (·.role) = some "superadmin"
  if ¬ isSuperAdmin then (room, .notAdmin, false)
  else if room.players.length < 2 then (room, .notEnoughPlayers, false)
  else
    ({ room with
        gameStarted := true
        gamePhase := "voting"
        currentRound := 1 }, .ok, true)

/-- `socket.on('vote')` (lines 443–513): record the vote; when every
current player has a recorded vote, tally all recorded votes, fix the
outcome, award points to every player, and move to `results`.  The
handler does not check the phase and the votes ledger survives until
`advanceRound`, so the resolution block runs again on any later vote
event in the same round. -/
def voteHandler (room : Room) (playerId : String) (choice : Choice) :
    Room :=
  if ¬ room.gameStarted then room
  else if (objGet room.players playerId).isNone then room
  else
    let votes := objSet room.votes playerId choice
    let allVoted := room.players.all
      (fun p => (objGet votes p.1).isSome)
    if allVoted then
      let t := tallyVotes (votes.map (·.2))
      let outcome := roundOutcomeOf (votes.map (·.2))
      let scored := room.players.foldl
        (fun (acc : (String → ℤ) × List (String × ℤ)) p =>
          let points := match objGet votes p.1 with
            | some v => pointsFor v outcome
            | none => 10
          (updFn acc.1 p.2 (acc.1 p.2 + points),
            objSet acc.2 p.2 points))
        (room.scores, ([] : List (String × ℤ)))
      { room with
          votes := votes
          scores := scored.1
          voteTally := some t
          roundOutcome := some outcome
          roundScores := scored.2
          gamePhase := "results" }
    else
      { room with votes := votes }

/-- A join-or-leave player action on a room, for the roster-uniqueness
invariant. -/
inductive RoomAction where
  | join (playerId country : String)
  | leave (playerId : String)

/-- Apply one roster action through the corresponding handler. -/
def applyRoomAction (users : List UserRec) (room : Room) :
    RoomAction → Room
  | .join playerId country =>
      (joinGameHandler users room playerId country).1
  | .leave playerId => leaveGameHandler room playerId

/-- Apply a sequence of roster actions in order. -/
def applyRoomActions (users : List UserRec) (room : Room)
    (acts : List RoomAction) : Room :=
  acts.foldl (applyRoomAction users) room

/-- The roster invariant: player ids are unique (JS object keys) and no
two players hold the same country. -/
def RosterInv (room : Room) : Prop :=
  (room.players.map (·.1)).Nodup ∧ (room.players.map (·.2)).Nodup

/-! ## Concrete fixtures used by the scenario theorems -/

/-- A started two-player multiroom game, round 1, no votes yet. -/
def roomTwo : Room :=
  { freshRoom "host" with
      gameStarted := true
      gamePhase := "voting"
      currentRound := 1
      players := [("p1", "USA"), ("p2", "UK")] }

/-- A started three-player multiroom game, round 1, no votes yet. -/
def roomThree : Room :=
  { freshRoom "host" with
      gameStarted := true
      gamePhase := "voting"
      currentRound := 1
      players := [("p1", "USA"), ("p2", "UK"), ("p3", "USSR")] }

/-- A lobby room holding exactly one player. -/
def roomOnePlayer : Room :=
  { freshRoom "host" with players := [("p1", "USA")] }

/-- A user table whose only superadmin has player id `admin1`. -/
def usersWithAdmin : List UserRec :=
  [⟨"admin1", "superadmin"⟩, ⟨"p1", "player"⟩, ⟨"p2", "player"⟩]

/-- A year record with simple integral values, used where only the
record's presence matters. -/
def plainRecord : EconData := ⟨3, 2000, 4, 100, 5, 100⟩

/-- A `server.js` game deep in Phase 2: current year 1952, one player
(USA), full ready quorum, records for 1946 and 1952, no policies
submitted for 1952. -/
def gsYear1952 : GameState :=
  { gameStarted := true
    currentRound := 15
    players := [("p1", "USA")]
    votes := []
    readyPlayers := ["p1"]
    gamePhase := "phase2"
    scores := fun _ => 0
    roundHistory := []
    phase2 :=
      { active := true
        currentYear := 1952
        maxYears := 7
        yearlyData := [(1946, [("USA", plainRecord)]),
                       (1952, [("USA", plainRecord)])]
        policies := []
        achievements := []
        yearScores := [] } }

/-- All-zero shock source: the deterministic run. -/
def noShocks : String → ShockInputs := fun _ => zeroShocks

/-- The state and error after `advanceYear` fires on `gsYear1952`. -/
def advanceAt1952 : GameState × Option JsErr :=
  advanceYearHandler gsYear1952 noShocks

/-- `advanceAt1952`'s state with the ready quorum restored, as it stands
when the next `advanceYear` event arrives. -/
def gsYear1953Ready : GameState :=
  { advanceAt1952.1 with readyPlayers := ["p1"] }

/-- The state and error after `advanceYear` fires at year 1953. -/
def advanceAt1953 : GameState × Option JsErr :=
  advanceYearHandler gsYear1953Ready noShocks

/-- A Phase-1 issue whose first option favors a country (`UK`) that has
no player in `gsOnePlayerRound` below. -/
def issueFavUK : Issue :=
  { id := "i1"
    title := "Test issue"
    options :=
      [{ id := "a", text := "Option A", favors := ["USA", "UK"], opposes := [] },
       { id := "b", text := "Option B", favors := [], opposes := [] }] }

/-- A `server.js` game in round 1 with a single player (USA) who voted
for option `a` of `issueFavUK`. -/
def gsOnePlayerRound : GameState :=
  { gsYear1952 with
      currentRound := 1
      players := [("p1", "USA")]
      votes := [("i1-USA", "a")] }

/-- The 2-vs-1 spec scenario issue: option `a` favors USA and opposes
UK. -/
def issueTwoVsOne : Issue :=
  { id := "i1"
    title := "Test issue"
    options :=
      [{ id := "a", text := "Option A", favors := ["USA"], opposes := ["UK"] },
       { id := "b", text := "Option B", favors := [], opposes := [] }] }

/-- A `server.js` game in round 1 with three players; USA and USSR voted
for option `a`, UK voted for option `b`. -/
def gsTwoVsOne : GameState :=
  { gsYear1952 with
      currentRound := 1
      players := [("p1", "USA"), ("p2", "UK"), ("p3", "USSR")]
      votes := [("i1-USA", "a"), ("i1-UK", "b"), ("i1-USSR", "a")] }

/-- A one-decimal previous-year record for the C3 scenario (USA's 1946
shape: unemployment 3.9, inflation 8.3). -/
def prevUSA1946 : EconData := ⟨0, 20000, 3.9, 1000, 8.3, 100⟩

/-- An integral previous-year record for a non-USA country. -/
def prevOther1946 : EconData := ⟨0, 2000, 5, 100, 3, 100⟩

/-- The C3 scenario policy: central-bank rate 3.0, exchange rate 1.0,
tariff 10. -/
def policyScenario : Policy := ⟨3.0, 1.0, 10⟩

/-! ## Helper lemmas -/

theorem updFn_same {α : Type} [DecidableEq κ] (f : κ → α) (k : κ) (v : α) :
    updFn f k v k = v := by
  simp [updFn]

theorem updFn_other {α : Type} [DecidableEq κ] (f : κ → α) (k x : κ) (v : α)
    (h : x ≠ k) : updFn f k v x = f x := by
  simp [updFn, h]

theorem jsRound_intCast (k : ℤ) : jsRound (k : ℚ) = k := by
  rw [jsRound, Int.floor_int_add]
  norm_num

theorem round1_tenth (k : ℤ) : round1 ((k : ℚ) / 10) = (k : ℚ) / 10 := by
  have h : ((k : ℚ) / 10) * 10 = (k : ℚ) := by field_simp
  rw [round1, h, jsRound_intCast]

theorem tallyVotes_foldl_counts (vs : List Choice) : ∀ t : Tally,
    (vs.foldl
      (fun t v =>
        match v with
        | .voteFor => { t with tFor := t.tFor + 1 }
        | .voteAgainst => { t with tAgainst := t.tAgainst + 1 }
        | .voteAbstain => { t with tAbstain := t.tAbstain + 1 })
      t).tFor = t.tFor + vs.count .voteFor ∧
    (vs.foldl
      (fun t v =>
        match v with
        | .voteFor => { t with tFor := t.tFor + 1 }
        | .voteAgainst => { t with tAgainst := t.tAgainst + 1 }
        | .voteAbstain => { t with tAbstain := t.tAbstain + 1 })
      t).tAgainst = t.tAgainst + vs.count .voteAgainst := by
  induction vs with
  | nil => intro t; simp
  | cons v rest ih =>
      intro t
      cases v
      case voteFor =>
        refine ⟨?_, ?_⟩
        · simp only [List.foldl_cons]
          rw [(ih _).1]
          simp [List.count_cons]
          omega
        · simp only [List.foldl_cons]
          rw [(ih _).2]
          simp [List.count_cons]
      case voteAgainst =>
        refine ⟨?_, ?_⟩
        · simp only [List.foldl_cons]
          rw [(ih _).1]
          simp [List.count_cons]
        · simp only [List.foldl_cons]
          rw [(ih _).2]
          simp [List.count_cons]
          omega
      case voteAbstain =>
        refine ⟨?_, ?_⟩
        · simp only [List.foldl_cons]
          rw [(ih _).1]
          simp [List.count_cons]
        · simp only [List.foldl_cons]
          rw [(ih _).2]
          simp [List.count_cons]

theorem tallyVotes_tFor (vs : List Choice) :
    (tallyVotes vs).tFor = vs.count .voteFor := by
  simpa using (tallyVotes_foldl_counts vs ⟨0, 0, 0⟩).1

theorem tallyVotes_tAgainst (vs : List Choice) :
    (tallyVotes vs).tAgainst = vs.count .voteAgainst := by
  simpa using (tallyVotes_foldl_counts vs ⟨0, 0, 0⟩).2

theorem map_upd_id_of_no_key {κ α : Type} [DecidableEq κ]
    (t : List (κ × α)) (k : κ) (v : α) (h : ∀ e ∈ t, e.1 ≠ k) :
    t.map (fun e => if e.1 = k then (k, v) else e) = t := by
  rw [List.map_congr_left (fun e he => if_neg (h e he))]
  simp

theorem values_map_upd_subset {κ α : Type} [DecidableEq κ]
    (t : List (κ × α)) (k : κ) (v : α) (x : α)
    (hx : x ∈ (t.map (fun e => if e.1 = k then (k, v) else e)).map (·.2)) :
    x = v ∨ x ∈ t.map (·.2) := by
  rw [List.map_map] at hx
  obtain ⟨e, he, hex⟩ := List.mem_map.mp hx
  by_cases hek : e.1 = k
  · left
    simpa [hek] using hex.symm
  · right
    exact List.mem_map.mpr ⟨e, he, by simpa [hek] using hex⟩

theorem nodup_values_map_upd {κ α : Type} [DecidableEq κ]
    (l : List (κ × α)) (k : κ) (v : α)
    (hk : (l.map (·.1)).Nodup) (hv : (l.map (·.2)).Nodup)
    (hnew : v ∉ l.map (·.2)) :
    ((l.map (fun e => if e.1 = k then (k, v) else e)).map (·.2)).Nodup := by
  induction l with
  | nil => simp
  | cons a t ih =>
      rw [List.map_cons, List.nodup_cons] at hk hv
      rw [List.map_cons, List.mem_cons] at hnew
      push_neg at hnew
      by_cases hak : a.1 = k
      · have hkeys : ∀ e ∈ t, e.1 ≠ k := by
          intro e he hek
          refine hk.1 (List.mem_map.mpr ⟨e, he, ?_⟩)
          rw [hek, hak]
        simp only [List.map_cons, hak, if_pos rfl,
          map_upd_id_of_no_key t k v hkeys]
        exact List.nodup_cons.mpr ⟨hnew.2, hv.2⟩
      · simp only [List.map_cons, if_neg hak, List.nodup_cons]
        constructor
        · intro hmem
          rcases values_map_upd_subset t k v a.2 hmem with h | h
          · exact hnew.1 h.symm
          · exact hv.1 h
        · exact ih hk.2 hv.2 hnew.2

theorem rosterInv_joinGame (users : List UserRec) (room : Room)
    (playerId country : String) (hinv : RosterInv room) :
    RosterInv (joinGameHandler users room playerId country).1 := by
  unfold joinGameHandler
  by_cases hadmin : (findUser users playerId).map (·.role) = some "superadmin"
  · simpa [hadmin] using hinv
  · by_cases htaken : room.players.any (fun p => p.2 = country) = true
    · simpa [hadmin, htaken] using hinv
    · have hnew : country ∉ room.players.map (·.2) := by
        intro hmem
        obtain ⟨e, he, hev⟩ := List.mem_map.mp hmem
        exact htaken (List.any_eq_true.mpr ⟨e, he, by simp [hev]⟩)
      obtain ⟨hk, hv⟩ := hinv
      simp only [hadmin, htaken, if_false, Bool.false_eq_true]
      constructor
      · unfold objSet
        by_cases hany : room.players.any (fun e => e.1 = playerId) = true
        · have : (room.players.map
              (fun e => if e.1 = playerId then (playerId, country) else e)).map
              (·.1) = room.players.map (·.1) := by
            rw [List.map_map]
            refine List.map_congr_left (fun e _ => ?_)
            by_cases h : e.1 = playerId <;> simp [h]
          simpa [hany, this] using hk
        · have hnk : playerId ∉ room.players.map (·.1) := by
            intro hmem
            obtain ⟨e, he, hev⟩ := List.mem_map.mp hmem
            exact hany (List.any_eq_true.mpr ⟨e, he, by simp [hev]⟩)
          simp only [hany, if_false, Bool.false_eq_true, List.map_append]
          refine List.Nodup.append hk (List.nodup_singleton _) ?_
          intro x hx hx2
          simp only [List.map_cons, List.map_nil, List.mem_singleton] at hx2
          exact hnk (hx2 ▸ hx)
      · unfold objSet
        by_cases hany : room.players.any (fun e => e.1 = playerId) = true
        · simpa [hany] using
            nodup_values_map_upd room.players playerId country hk hv hnew
        · simp only [hany, if_false, Bool.false_eq_true, List.map_append]
          refine List.Nodup.append hv (List.nodup_singleton _) ?_
          intro x hx hx2
          simp only [List.map_cons, List.map_nil, List.mem_singleton] at hx2
          exact hnew (hx2 ▸ hx)

theorem rosterInv_leaveGame (room : Room) (playerId : String)
    (hinv : RosterInv room) : RosterInv (leaveGameHandler room playerId) := by
  obtain ⟨hk, hv⟩ := hinv
  have hsub := List.filter_sublist
    (p := fun e => decide (¬ e.1 = playerId)) room.players
  exact ⟨(hsub.map (·.1)).nodup hk, (hsub.map (·.2)).nodup hv⟩

theorem find?_congr_mem {α : Type} (l : List α) (p q : α → Bool)
    (h : ∀ x ∈ l, p x = q x) : l.find? p = l.find? q := by
  induction l with
  | nil => rfl
  | cons a t ih =>
      by_cases hq : q a = true
      · rw [List.find?_cons_of_pos _ ((h a (by simp)).trans hq),
          List.find?_cons_of_pos _ hq]
      · rw [List.find?_cons_of_neg _ (by simp [(h a (by simp)), hq]),
          List.find?_cons_of_neg _ (by simp [hq])]
        exact ih (fun x hx => h x (by simp [hx]))

theorem winner_fold_spec (l : List (String × ℕ)) : ∀ (s : Option String) (b : ℤ),
    (l.foldl
      (fun acc e => if (e.2 : ℤ) > acc.2 then (some e.1, (e.2 : ℤ)) else acc)
      (s, b)).1 =
    if l.all (fun e => decide ((e.2 : ℤ) ≤ b)) then s
    else (l.find? (fun e => decide (b < (e.2 : ℤ)) &&
      l.all (fun e' => decide ((e'.2 : ℤ) ≤ (e.2 : ℤ))))).map (·.1) := by
  induction l with
  | nil => intro s b; simp
  | cons a t ih =>
      intro s b
      rw [List.foldl_cons]
      by_cases hab : (a.2 : ℤ) > b
      · rw [show (if (a.2 : ℤ) > (s, b).2 then (some a.1, (a.2 : ℤ))
            else (s, b)) = (some a.1, (a.2 : ℤ)) from if_pos hab]
        rw [ih]
        have hfalse : ((a :: t).all (fun e => decide ((e.2 : ℤ) ≤ b))) = false := by
          simp only [List.all_cons, Bool.and_eq_false_iff]
          left
          simpa using not_le.mpr hab
        rw [hfalse]
        simp only [Bool.false_eq_true, if_false]
        by_cases h1 : t.all (fun e' => decide ((e'.2 : ℤ) ≤ (a.2 : ℤ))) = true
        · rw [if_pos h1]
          have d1 : decide (b < (a.2 : ℤ)) = true := decide_eq_true hab
          have d2 : decide ((a.2 : ℤ) ≤ (a.2 : ℤ)) = true := decide_eq_true le_rfl
          simp only [List.find?_cons, List.all_cons, d1, d2, h1,
            Bool.true_and, Bool.and_true, Bool.and_self]
          rfl
        · rw [if_neg h1]
          have h1f : t.all (fun e' => decide ((e'.2 : ℤ) ≤ (a.2 : ℤ))) = false :=
            Bool.eq_false_iff.mpr h1
          simp only [List.find?_cons, List.all_cons, h1f, Bool.and_false]
          refine congrArg (Option.map (fun e : String × ℕ => e.1)) (find?_congr_mem t _ _ ?_)
          intro e he
          by_cases ht : t.all (fun e' => decide ((e'.2 : ℤ) ≤ (e.2 : ℤ))) = true
          · obtain ⟨y, hy, hya⟩ : ∃ y ∈ t, ¬ ((y.2 : ℤ) ≤ (a.2 : ℤ)) := by
              by_contra hno
              push_neg at hno
              exact h1 (List.all_eq_true.mpr
                (fun y hy => decide_eq_true (hno y hy)))
            have hye : (y.2 : ℤ) ≤ (e.2 : ℤ) :=
              of_decide_eq_true (List.all_eq_true.mp ht y hy)
            have hae : (a.2 : ℤ) < (e.2 : ℤ) :=
              lt_of_lt_of_le (lt_of_not_le hya) hye
            have hbe : b < (e.2 : ℤ) := lt_trans hab hae
            simp only [List.all_cons, ht, decide_eq_true hbe,
              decide_eq_true hae, decide_eq_true (le_of_lt hae),
              Bool.true_and, Bool.and_true, Bool.and_self]
          · have htf : t.all (fun e' => decide ((e'.2 : ℤ) ≤ (e.2 : ℤ))) = false :=
              Bool.eq_false_iff.mpr ht
            simp only [List.all_cons, htf, Bool.and_false]
      · rw [show (if (a.2 : ℤ) > (s, b).2 then (some a.1, (a.2 : ℤ))
            else (s, b)) = (s, b) from if_neg hab]
        rw [ih]
        have hab' : (a.2 : ℤ) ≤ b := not_lt.mp hab
        have hsame : ((a :: t).all (fun e => decide ((e.2 : ℤ) ≤ b))) =
            t.all (fun e => decide ((e.2 : ℤ) ≤ b)) := by
          simp [List.all_cons, hab']
        rw [hsame]
        by_cases h1 : t.all (fun e => decide ((e.2 : ℤ) ≤ b)) = true
        · rw [if_pos h1, if_pos h1]
        · rw [if_neg h1, if_neg h1]
          have dba : decide (b < (a.2 : ℤ)) = false :=
            decide_eq_false (not_lt.mpr hab')
          simp only [List.find?_cons, List.all_cons, dba, Bool.false_and]
          refine congrArg (Option.map (fun e : String × ℕ => e.1)) (find?_congr_mem t _ _ ?_)
          intro e he
          by_cases hbe : b < (e.2 : ℤ)
          · have hae : (a.2 : ℤ) ≤ (e.2 : ℤ) :=
              le_of_lt (lt_of_le_of_lt hab' hbe)
            simp only [List.all_cons, decide_eq_true hae, Bool.true_and]
          · have hbef : decide (b < (e.2 : ℤ)) = false := decide_eq_false hbe
            simp only [hbef, Bool.false_and]

theorem findWinner_eq_specWinner (l : List (String × ℕ)) :
    findWinner l = specWinner l := by
  cases l with
  | nil => rfl
  | cons a t =>
      rw [findWinner, winner_fold_spec]
      have hall : ((a :: t).all (fun e => decide ((e.2 : ℤ) ≤ (-1 : ℤ)))) = false := by
        simp only [List.all_cons, Bool.and_eq_false_iff]
        left
        simp only [decide_eq_false_iff_not]
        omega
      rw [hall]
      simp only [Bool.false_eq_true, if_false, specWinner]
      refine congrArg (Option.map (fun e : String × ℕ => e.1)) (find?_congr_mem _ _ _ ?_)
      intro e _
      have h1 : decide ((-1 : ℤ) < (e.2 : ℤ)) = true := by
        simp only [decide_eq_true_eq]
        omega
      rw [h1, Bool.true_and]
      have h2 : ∀ e' : String × ℕ,
          (decide ((e'.2 : ℤ) ≤ (e.2 : ℤ))) = (decide (e'.2 ≤ e.2)) := by
        intro e'
        exact decide_eq_decide.mpr Nat.cast_le
      simp only [h2]

theorem roundDeltaStep_same (winningOption : IssueOption) (sc : String → ℤ)
    (p : String × String) :
    roundDeltaStep winningOption sc p p.2 = sc p.2 + deltaFor winningOption p.2 := by
  unfold roundDeltaStep deltaFor
  rcases Bool.eq_false_or_eq_true (winningOption.favors.contains p.2) with hf | hf <;>
    rcases Bool.eq_false_or_eq_true (winningOption.opposes.contains p.2) with ho | ho <;>
      simp only [hf, ho, Bool.false_eq_true, if_false, if_true, updFn_same] <;>
        ring

theorem roundDeltaStep_other (winningOption : IssueOption) (sc : String → ℤ)
    (p : String × String) (c : String) (hc : c ≠ p.2) :
    roundDeltaStep winningOption sc p c = sc c := by
  unfold roundDeltaStep
  rcases Bool.eq_false_or_eq_true (winningOption.favors.contains p.2) with hf | hf <;>
    rcases Bool.eq_false_or_eq_true (winningOption.opposes.contains p.2) with ho | ho <;>
      simp only [hf, ho, Bool.false_eq_true, if_false, if_true,
        updFn_other _ _ _ _ hc]

theorem applyRoundDeltas_spec (winningOption : IssueOption)
    (players : List (String × String)) :
    ∀ (sc : String → ℤ) (c : String), (players.map (·.2)).Nodup →
    applyRoundDeltas winningOption players sc c =
      sc c + (if c ∈ players.map (·.2) then deltaFor winningOption c else 0) := by
  induction players with
  | nil => intro sc c _; simp [applyRoundDeltas]
  | cons p t ih =>
      intro sc c hnd
      rw [List.map_cons, List.nodup_cons] at hnd
      rw [show applyRoundDeltas winningOption (p :: t) sc =
        applyRoundDeltas winningOption t
          (roundDeltaStep winningOption sc p) from rfl]
      rw [ih _ c hnd.2, List.map_cons]
      by_cases hc : c = p.2
      · subst hc
        rw [if_neg hnd.1, if_pos (List.mem_cons_self p.2 _),
          roundDeltaStep_same, add_zero]
      · rw [roundDeltaStep_other _ _ _ _ hc]
        have hmem : (c ∈ p.2 :: t.map (·.2)) ↔ c ∈ t.map (·.2) := by
          rw [List.mem_cons]
          exact ⟨fun h => h.resolve_left hc, Or.inr⟩
        by_cases hct : c ∈ t.map (·.2)
        · rw [if_pos hct, if_pos (hmem.mpr hct)]
        · rw [if_neg hct, if_neg (fun h => hct (hmem.mp h))]

theorem evalCountryAchievements_none_or_error (gs : GameState) (c : String) :
    evalCountryAchievements gs c = none ∨
    evalCountryAchievements gs c = some (.error .gameDataUndefined) := by
  unfold evalCountryAchievements
  by_cases h : (yearsFor gs c).isEmpty = true
  · left
    simp [h]
  · right
    simp [h, gameDataVar]

theorem evalCountryAchievements_error_of_years (gs : GameState) (c : String)
    (h : ¬ (yearsFor gs c).isEmpty = true) :
    evalCountryAchievements gs c = some (.error .gameDataUndefined) := by
  unfold evalCountryAchievements
  simp [h, gameDataVar]

theorem achievementsLoop_error (gs : GameState) (cs : List String)
    (h : ∃ c ∈ cs, evalCountryAchievements gs c ≠ none) :
    achievementsLoop gs cs = (gs, some .gameDataUndefined) := by
  induction cs with
  | nil =>
      obtain ⟨c, hc, _⟩ := h
      cases hc
  | cons a t ih =>
      rcases evalCountryAchievements_none_or_error gs a with ha | ha
      · simp only [achievementsLoop, ha]
        refine ih ?_
        obtain ⟨c, hc, hne⟩ := h
        rcases List.mem_cons.mp hc with rfl | hct
        · exact absurd ha hne
        · exact ⟨c, hct, hne⟩
      · simp only [achievementsLoop, ha]

theorem rosterInv_applyRoomActions (users : List UserRec)
    (acts : List RoomAction) : ∀ room : Room, RosterInv room →
    RosterInv (applyRoomActions users room acts) := by
  induction acts with
  | nil => intro room h; exact h
  | cons a t ih =>
      intro room h
      rw [show applyRoomActions users room (a :: t) =
        applyRoomActions users (applyRoomAction users room a) t from rfl]
      refine ih _ ?_
      cases a with
      | join playerId country => exact rosterInv_joinGame users room playerId country h
      | leave playerId => exact rosterInv_leaveGame room playerId h

/-! ## Claim theorems -/

/-- C1: the claim says vote resolution fires exactly once per round and
a further vote event after the outcome has fired changes no score.  On
the code, in a started 2-player room, after both players vote `for` the
round resolves (`results`, both countries at 40); a repeated `vote`
event from p1 re-runs the whole tally block and adds the round's points
again, doubling both countries' scores to 80.  This theorem evaluates
the embedded handler on that failing input. -/
theorem c1_revote_after_resolution_rescores :
    (voteHandler roomTwo "p1" .voteFor).roundOutcome = none ∧
    (voteHandler (voteHandler roomTwo "p1" .voteFor) "p2" .voteFor).gamePhase
      = "results" ∧
    (voteHandler (voteHandler roomTwo "p1" .voteFor) "p2" .voteFor).scores "USA"
      = 40 ∧
    (voteHandler (voteHandler roomTwo "p1" .voteFor) "p2" .voteFor).scores "UK"
      = 40 ∧
    (voteHandler (voteHandler (voteHandler roomTwo "p1" .voteFor) "p2" .voteFor)
      "p1" .voteFor).scores "USA" = 80 ∧
    (voteHandler (voteHandler (voteHandler roomTwo "p1" .voteFor) "p2" .voteFor)
      "p1" .voteFor).scores "UK" = 80 := by
  decide

/-- C4: when a country's policy for the current year is absent, the
next-year record is the prior record with `gdpGrowth` replaced by the
fixed −2.0 penalty; gold reserves, unemployment, trade balance,
inflation and industrial output carry forward unchanged, and no
performance score is awarded — the computation never fails. -/
theorem c4_missing_policy_penalty (country : String) (currentYear : ℕ)
    (prevData : EconData) (agreementBonus : ℚ) (sh : ShockInputs) :
    (calcCountryYearOpt country currentYear prevData none agreementBonus
      sh).1.gdpGrowth = -2.0 ∧
    (calcCountryYearOpt country currentYear prevData none agreementBonus
      sh).1.goldReserves = prevData.goldReserves ∧
    (calcCountryYearOpt country currentYear prevData none agreementBonus
      sh).1.unemployment = prevData.unemployment ∧
    (calcCountryYearOpt country currentYear prevData none agreementBonus
      sh).1.tradeBalance = prevData.tradeBalance ∧
    (calcCountryYearOpt country currentYear prevData none agreementBonus
      sh).1.inflation = prevData.inflation ∧
    (calcCountryYearOpt country currentYear prevData none agreementBonus
      sh).1.industrialOutput = prevData.industrialOutput ∧
    (calcCountryYearOpt country currentYear prevData none agreementBonus
      sh).2 = none :=
  ⟨rfl, rfl, rfl, rfl, rfl, rfl, rfl⟩

/-- C5: once every current player has voted, the round outcome is
`passed` iff the `for` count strictly exceeds the `against` count (a tie
yields `failed`); in the 3-player room with votes for/for/against the
handler resolves to `passed` with scores USA 40, UK 40, USSR 10, and
does not resolve while a vote is still missing. -/
theorem c5_outcome_majority_and_scenario :
    (∀ vs : List Choice,
      (roundOutcomeOf vs = "passed" ↔
        vs.count .voteFor > vs.count .voteAgainst) ∧
      (vs.count .voteFor = vs.count .voteAgainst →
        roundOutcomeOf vs = "failed")) ∧
    ((voteHandler (voteHandler roomThree "p1" .voteFor) "p2" .voteFor).roundOutcome
      = none ∧
     (voteHandler (voteHandler (voteHandler roomThree "p1" .voteFor) "p2"
        .voteFor) "p3" .voteAgainst).roundOutcome = some "passed" ∧
     (voteHandler (voteHandler (voteHandler roomThree "p1" .voteFor) "p2"
        .voteFor) "p3" .voteAgainst).scores "USA" = 40 ∧
     (voteHandler (voteHandler (voteHandler roomThree "p1" .voteFor) "p2"
        .voteFor) "p3" .voteAgainst).scores "UK" = 40 ∧
     (voteHandler (voteHandler (voteHandler roomThree "p1" .voteFor) "p2"
        .voteFor) "p3" .voteAgainst).scores "USSR" = 10) := by
  constructor
  · intro vs
    constructor
    · rw [roundOutcomeOf, tallyVotes_tFor, tallyVotes_tAgainst]
      by_cases h : vs.count Choice.voteFor > vs.count Choice.voteAgainst
      · simp [h]
      · simp [h]
    · intro h
      rw [roundOutcomeOf, tallyVotes_tFor, tallyVotes_tAgainst, h]
      simp
  · decide

/-- C5 witness: a one-for-one-against tie resolves to `failed`, by the
tie clause of the main theorem at a concrete vote list. -/
theorem c5_outcome_majority_witness :
    roundOutcomeOf [Choice.voteFor, Choice.voteAgainst] = "failed" :=
  (c5_outcome_majority_and_scenario.1 _).2 (by decide)

/-- C6: a `startGame` request from a superadmin on a room with exactly
one player is rejected with the structured not-enough-players error,
the room (in particular its phase) is unchanged, and no broadcast is
triggered. -/
theorem c6_startGame_one_player_rejected (users : List UserRec)
    (room : Room) (playerId : String)
    (hadmin : (findUser users playerId).map (·.role) = some "superadmin")
    (hone : room.players.length = 1) :
    startGameHandler users room playerId =
      (room, .notEnoughPlayers, false) ∧
    (startGameHandler users room playerId).1.gamePhase = room.gamePhase := by
  have h : startGameHandler users room playerId =
      (room, .notEnoughPlayers, false) := by
    simp [startGameHandler, hadmin, hone]
  exact ⟨h, by rw [h]⟩

/-- C6 witness: the concrete one-player lobby room with the concrete
admin table. -/
theorem c6_startGame_one_player_witness :
    startGameHandler usersWithAdmin roomOnePlayer "admin1" =
      (roomOnePlayer, .notEnoughPlayers, false) :=
  (c6_startGame_one_player_rejected usersWithAdmin roomOnePlayer "admin1"
    (by decide) (by decide)).1

/-- C7: from any roster satisfying the uniqueness invariant, every
sequence of joinGame/leaveGame actions preserves it (so no two players
in a room ever hold the same country), and a joinGame request for a
country already held in the room is rejected with the conflict error,
leaving the room unchanged and broadcasting nothing. -/
theorem c7_country_uniqueness (users : List UserRec) (room : Room)
    (acts : List RoomAction) (hinv : RosterInv room) :
    RosterInv (applyRoomActions users room acts) ∧
    (∀ playerId country,
      room.players.any (fun p => p.2 = country) = true →
      ¬ (findUser users playerId).map (·.role) = some "superadmin" →
      joinGameHandler users room playerId country =
        (room, .countryTaken, false)) := by
  refine ⟨rosterInv_applyRoomActions users acts room hinv, ?_⟩
  intro playerId country htaken hnadmin
  simp [joinGameHandler, hnadmin, htaken]

/-- C7 witness: a concrete action sequence with a duplicate-country join
attempt keeps the roster invariant, and the concrete conflicting join is
rejected unchanged. -/
theorem c7_country_uniqueness_witness :
    RosterInv (applyRoomActions usersWithAdmin (freshRoom "host")
      [RoomAction.join "p1" "USA", RoomAction.join "p2" "USA",
       RoomAction.join "p2" "UK", RoomAction.leave "p1",
       RoomAction.join "p3" "UK"]) ∧
    joinGameHandler usersWithAdmin roomTwo "p3" "USA" =
      (roomTwo, .countryTaken, false) :=
  ⟨(c7_country_uniqueness usersWithAdmin (freshRoom "host")
      [RoomAction.join "p1" "USA", RoomAction.join "p2" "USA",
       RoomAction.join "p2" "UK", RoomAction.leave "p1",
       RoomAction.join "p3" "UK"] ⟨by decide, by decide⟩).1,
   (c7_country_uniqueness usersWithAdmin roomTwo [] ⟨by decide, by decide⟩).2
      "p3" "USA" (by decide) (by decide)⟩

/-- C10: a joinGame request from a user whose role is `superadmin` is
rejected with the structured observer error, the room is unchanged, and
no broadcast is triggered — an administrator can never become a player. -/
theorem c10_superadmin_join_rejected (users : List UserRec) (room : Room)
    (playerId country : String)
    (hadmin : (findUser users playerId).map (·.role) = some "superadmin") :
    joinGameHandler users room playerId country =
      (room, .adminObserver, false) := by
  simp [joinGameHandler, hadmin]

/-- C10 witness: the concrete admin in the concrete two-player room. -/
theorem c10_superadmin_join_witness :
    joinGameHandler usersWithAdmin roomTwo "admin1" "France" =
      (roomTwo, .adminObserver, false) :=
  c10_superadmin_join_rejected usersWithAdmin roomTwo "admin1" "France"
    (by decide)

/-- C2: the claim says achievement evaluation terminates normally for
every country with at least one recorded year.  On the code it never
does: as soon as a country has a recorded year, the Phoenix Rising block
dereferences the undeclared identifier `gameData` and the whole
evaluation aborts with a ReferenceError, storing no achievements and no
bonus.  This theorem shows the crash for every such country. -/
theorem c2_achievement_evaluation_throws (gs : GameState) (c : String)
    (hc : c ∈ gs.players.map (·.2))
    (hy : ¬ (yearsFor gs c).isEmpty = true) :
    (calculateFinalAchievements gs).2 = some JsErr.gameDataUndefined ∧
    (calculateFinalAchievements gs).1 = gs := by
  have h := achievementsLoop_error gs (gs.players.map (·.2))
    ⟨c, hc, by rw [evalCountryAchievements_error_of_years gs c hy]; simp⟩
  rw [calculateFinalAchievements, h]
  exact ⟨rfl, rfl⟩

/-- C2 witness: the concrete Phase-2 state (USA holds records for 1946
and 1952) crashes achievement evaluation. -/
theorem c2_achievement_evaluation_witness :
    (calculateFinalAchievements gsYear1952).2 =
      some JsErr.gameDataUndefined :=
  (c2_achievement_evaluation_throws gsYear1952 "USA" (by decide)
    (by decide)).1

/-- C9: the claim says `advanceYear` computes no year records beyond the
configured 1946–1952 range, then on reaching the maximum runs
achievement evaluation once and moves the phase to `complete`.  On the
code, the economics step runs before the range check: advancing at year
1952 already stores a record under 1953, the next advance stores one
under 1954, and the final-achievement call then throws (undeclared
`gameData`), so the phase never becomes `complete`. -/
theorem c9_advanceYear_overruns_range_and_crashes :
    advanceAt1952.2 = none ∧
    advanceAt1952.1.phase2.currentYear = 1953 ∧
    (objGet advanceAt1952.1.phase2.yearlyData 1953).isSome = true ∧
    advanceAt1953.2 = some JsErr.gameDataUndefined ∧
    advanceAt1953.1.gamePhase = "phase2" ∧
    (objGet advanceAt1953.1.phase2.yearlyData 1954).isSome = true := by
  decide

/-- C3 counterexample: the claim quantifies over every country, but the
tariff optimum is 10 only for the reference country USA (15 otherwise),
so a non-USA country submitting {3.0, 1.0, 10} with zero bonus and zero
shocks gets GDP growth 3.5, not 4.0. -/
theorem c3_counterexample_nonreference_country :
    (calcCountryYear "UK" 1946 prevOther1946 policyScenario 0
      zeroShocks).1.gdpGrowth = 3.5 ∧ (3.5 : ℚ) ≠ 4.0 := by
  constructor
  · simp only [calcCountryYear, civilWarPenalty, indiaTransition,
      policyScenario, zeroShocks, prevOther1946, String.reduceEq, reduceIte]
    norm_num [round1, jsRound]
  · norm_num

/-- C3 (amended to the reference country): for USA, whose tariff optimum
is 10, the policy {3.0, 1.0, 10} in 1946 with zero agreement bonus and
zero shocks yields GDP growth exactly 4.0, next-year unemployment equal
to the prior value minus 0.3 (the prior value being a one-decimal figure
inside the clamp range), unchanged inflation, and a trade balance moved
only by the tariff (10·−20) and growth (4·−100) terms. -/
theorem c3_usa_reference_scenario (prev : EconData)
    (hinfl : 0 ≤ prev.inflation)
    (hinfl10 : ∃ k : ℤ, prev.inflation = (k : ℚ) / 10)
    (hu10 : ∃ k : ℤ, prev.unemployment = (k : ℚ) / 10)
    (hulo : 0.5 ≤ prev.unemployment - 0.3)
    (huhi : prev.unemployment - 0.3 ≤ 25)
    (ht : ∃ k : ℤ, prev.tradeBalance = (k : ℚ)) :
    (calcCountryYear "USA" 1946 prev policyScenario 0
      zeroShocks).1.gdpGrowth = 4.0 ∧
    (calcCountryYear "USA" 1946 prev policyScenario 0
      zeroShocks).1.unemployment = prev.unemployment - 0.3 ∧
    (calcCountryYear "USA" 1946 prev policyScenario 0
      zeroShocks).1.inflation = prev.inflation ∧
    (calcCountryYear "USA" 1946 prev policyScenario 0
      zeroShocks).1.tradeBalance =
      prev.tradeBalance + 10 * (-20) + 4.0 * (-100) := by
  obtain ⟨ku, hku⟩ := hu10
  obtain ⟨ki, hki⟩ := hinfl10
  obtain ⟨kt, hkt⟩ := ht
  simp only [calcCountryYear, civilWarPenalty, indiaTransition,
    policyScenario, zeroShocks, String.reduceEq, reduceIte]
  norm_num
  refine ⟨by norm_num [round1, jsRound], ?_, ?_, ?_⟩
  · have h1 : (25 : ℚ) ⊓ (prev.unemployment + -(3/10)) =
        prev.unemployment + -(3/10) := inf_eq_right.mpr (by linarith)
    have h2 : (1/2 : ℚ) ⊔ (prev.unemployment + -(3/10)) =
        prev.unemployment + -(3/10) := sup_eq_right.mpr (by linarith)
    rw [h1, h2, hku]
    have h3 : ((ku : ℚ)/10 + -(3/10)) = ((ku - 3 : ℤ) : ℚ)/10 := by
      push_cast
      ring
    rw [h3, round1_tenth]
    push_cast
    ring
  · have h1 : (0 : ℚ) ⊔ prev.inflation = prev.inflation :=
      sup_eq_right.mpr hinfl
    rw [h1, hki, round1_tenth]
  · rw [hkt]
    have h3 : ((kt : ℚ) + -200 + -400) = ((kt - 600 : ℤ) : ℚ) := by
      push_cast
      ring
    rw [h3, jsRound_intCast]

/-- C3 witness: the amended theorem applied to USA's concrete 1946-shape
record (unemployment 3.9, inflation 8.3, integral trade balance). -/
theorem c3_usa_reference_witness :
    (calcCountryYear "USA" 1946 prevUSA1946 policyScenario 0
      zeroShocks).1.gdpGrowth = 4.0 ∧
    (calcCountryYear "USA" 1946 prevUSA1946 policyScenario 0
      zeroShocks).1.unemployment = prevUSA1946.unemployment - 0.3 ∧
    (calcCountryYear "USA" 1946 prevUSA1946 policyScenario 0
      zeroShocks).1.inflation = prevUSA1946.inflation ∧
    (calcCountryYear "USA" 1946 prevUSA1946 policyScenario 0
      zeroShocks).1.tradeBalance =
      prevUSA1946.tradeBalance + 10 * (-20) + 4.0 * (-100) :=
  c3_usa_reference_scenario prevUSA1946
    (by norm_num [prevUSA1946])
    ⟨83, by norm_num [prevUSA1946]⟩
    ⟨39, by norm_num [prevUSA1946]⟩
    (by norm_num [prevUSA1946])
    (by norm_num [prevUSA1946])
    ⟨1000, by norm_num [prevUSA1946]⟩

/-- C8 counterexample: the claim says every country in the winning
option's favors list gains +10, but the code awards deltas only while
iterating over players.  With a single player (USA) and winning option
`a` favoring both USA and UK, the unplayed UK's score stays 0 instead of
gaining +10. -/
theorem c8_counterexample_unplayed_favored_country :
    findWinner (voteCountsFor issueFavUK gsOnePlayerRound.players
      gsOnePlayerRound.votes) = some "a" ∧
    (issueFavUK.options.find? (fun o => o.id = "a")).map (·.favors) =
      some ["USA", "UK"] ∧
    (calculateScoresForCurrentRound [issueFavUK] gsOnePlayerRound).scores "UK"
      = 0 ∧
    gsOnePlayerRound.scores "UK" + 10 ≠
      (calculateScoresForCurrentRound [issueFavUK] gsOnePlayerRound).scores "UK"
    := by
  decide

/-- C8 (amended to countries held by players): the winner is the option
with the strictly highest vote count, ties broken in favour of the
first-encountered counter in insertion order (`findWinner` agrees with
the spec-worded `specWinner`); at resolution every country held by a
player gains +10 if the winning option favors it and loses 5 if it
opposes it, applied exactly once, and every other country's score —
including favored or opposed countries with no player in the room — is
unchanged. -/
theorem c8_resolution_winner_and_deltas (issues : List Issue)
    (gs : GameState) (currentIssue : Issue) (winnerId : String)
    (winningOption : IssueOption)
    (hIss : issues[gs.currentRound - 1]? = some currentIssue)
    (hw : findWinner (voteCountsFor currentIssue gs.players gs.votes) =
      some winnerId)
    (hopt : currentIssue.options.find? (fun o => o.id = winnerId) =
      some winningOption)
    (hnd : (gs.players.map (·.2)).Nodup) :
    findWinner (voteCountsFor currentIssue gs.players gs.votes) =
      specWinner (voteCountsFor currentIssue gs.players gs.votes) ∧
    ∀ c, (calculateScoresForCurrentRound issues gs).scores c =
      gs.scores c +
        (if c ∈ gs.players.map (·.2) then deltaFor winningOption c else 0) := by
  refine ⟨findWinner_eq_specWinner _, ?_⟩
  intro c
  unfold calculateScoresForCurrentRound
  simp only [hIss, hw, hopt]
  exact applyRoundDeltas_spec winningOption gs.players gs.scores c hnd

/-- C8 witness: the 2-vs-1 spec scenario — option `a` (favors USA,
opposes UK) wins 2-to-1; USA gains +10, UK loses 5, the played USSR and
the unplayed France are unchanged. -/
theorem c8_resolution_winner_witness :
    (calculateScoresForCurrentRound [issueTwoVsOne] gsTwoVsOne).scores "USA"
      = 10 ∧
    (calculateScoresForCurrentRound [issueTwoVsOne] gsTwoVsOne).scores "UK"
      = -5 ∧
    (calculateScoresForCurrentRound [issueTwoVsOne] gsTwoVsOne).scores "USSR"
      = 0 ∧
    (calculateScoresForCurrentRound [issueTwoVsOne] gsTwoVsOne).scores "France"
      = 0 := by
  have h := (c8_resolution_winner_and_deltas [issueTwoVsOne] gsTwoVsOne
    issueTwoVsOne "a"
    { id := "a", text := "Option A", favors := ["USA"], opposes := ["UK"] }
    (by decide) (by decide) (by decide) (by decide)).2
  refine ⟨?_, ?_, ?_, ?_⟩ <;> rw [h _] <;> decide

end Bretton
